import Mathlib

/-!
# GUIPlotter: shallow embedding and verification

A shallow embedding of the GUIPlotter repository
(`src/guiplotter/data_loader.py`, `data_models.py`, `plot_app.py`) and
proofs checking the natural-language specification against it.

External collaborators (the filesystem, pandas' whitespace parser, Python's
`float()`, the matplotlib color palette) are modelled explicitly; everything
else is translated directly from the Python source.
-/

namespace GUIPlotter

/-- Python's `str.strip()` (Lean's `String.trim`), written by structural
recursion over the character list: drop whitespace from both ends. -/
def pstrip (s : String) : String :=
  String.mk (((s.data.dropWhile Char.isWhitespace).reverse.dropWhile
    Char.isWhitespace).reverse)

/-- Split a character list at every character satisfying `p`, keeping empty
segments (the behaviour of `String.split` / regex split). -/
def splitChars (p : Char → Bool) : List Char → List (List Char)
  | [] => [[]]
  | c :: cs =>
    match splitChars p cs, p c with
    | r, true => [] :: r
    | [], false => [[c]]
    | h :: t, false => (c :: h) :: t

/-- Value of a run of decimal digit characters, most significant first. -/
def digitsVal (cs : List Char) : Nat :=
  cs.foldl (fun a c => a * 10 + (c.toNat - 48)) 0

/-- An exact numeric value as an unnormalised fraction (numerator and
denominator), standing in for the Python floats the application computes
with.  Structural equality is used only to compare charts built by
identical computations, so normalisation is unnecessary; float rounding is
not modelled (no claim depends on it). -/
structure PyNum where
  num : ℤ
  den : ℕ
deriving DecidableEq, Repr

/-- The float `1.0`, the default scale multiplier. -/
def PyNum.one : PyNum := ⟨1, 1⟩

/-- Multiplication of numeric values (`x_data * x_scale` etc.). -/
def PyNum.mul (a b : PyNum) : PyNum := ⟨a.num * b.num, a.den * b.den⟩

/-- Model of Python's built-in `float(value)` parser, restricted to the
decimal forms `[+-]? (digits [. digits?] | . digits) ([eE][+-]?digits)?`.
The special forms `inf`/`nan` and digit-group underscores are not modelled
(no claim exercises them).  Returns the parsed value, or `none` when
`value` is not accepted. -/
def pyFloat (s : String) : Option PyNum :=
  let cs := s.data
  let (sgn, cs) : ℤ × List Char :=
    match cs with
    | '+' :: t => (1, t)
    | '-' :: t => (-1, t)
    | t => (1, t)
  let ip := cs.takeWhile (·.isDigit)
  let rest := cs.drop ip.length
  let (fp, rest) : List Char × List Char :=
    match rest with
    | '.' :: t => (t.takeWhile (·.isDigit), t.drop (t.takeWhile (·.isDigit)).length)
    | r => ([], r)
  if ip.isEmpty ∧ fp.isEmpty then none
  else
    let mantissa : PyNum :=
      ⟨sgn * (digitsVal ip * 10 ^ fp.length + digitsVal fp), 10 ^ fp.length⟩
    match rest with
    | [] => some mantissa
    | e :: t =>
      if e = 'e' ∨ e = 'E' then
        let (epos, t) : Bool × List Char :=
          match t with
          | '+' :: t2 => (true, t2)
          | '-' :: t2 => (false, t2)
          | t2 => (true, t2)
        let ed := t.takeWhile (·.isDigit)
        if ed.isEmpty ∨ ed.length ≠ t.length then none
        else if epos then some ⟨mantissa.num * 10 ^ digitsVal ed, mantissa.den⟩
        else some ⟨mantissa.num, mantissa.den * 10 ^ digitsVal ed⟩
      else none

/-- `pathlib.Path(p).stem`: the final path component without its last
suffix.  Mirrors Python's rule that a leading dot does not start a suffix. -/
def stem (p : String) : String :=
  let base := ((splitChars (· = '/') p.data).map String.mk).getLastD ""
  let cs := base.data
  let dotIdxs := (List.range cs.length).filter fun i => cs.getD i ' ' = '.'
  match dotIdxs.getLast? with
  | some i => if 0 < i then String.mk (cs.take i) else base
  | none => base

/-! ## Data model (`data_models.py`) -/

/-- The tabular payload held by a loaded dataset: the column names (from the
header line) and the data rows, each a list of whitespace-separated fields.
This models the pandas `DataFrame` produced by `pd.read_csv`. -/
structure DFrame where
  columns : List String
  rows : List (List String)
deriving DecidableEq, Repr

/-- `DataSet` from `data_models.py`: a loaded dataset with its resolved
source path, its column names and its data. -/
structure DataSet where
  path : String
  columns : List String
  data : DFrame
deriving DecidableEq, Repr

/-- `DataSet.name`: the file stem of the dataset's path. -/
def DataSet.name (d : DataSet) : String := stem d.path

/-- `SeriesSelection` from `data_models.py`: one user-selected series. -/
structure SeriesSelection where
  dataset_index : Nat
  column : String
  axis : String
  label : String
  color : Option String := none
deriving DecidableEq, Repr

/-! ## Loader (`data_loader.py`) -/

/-- `DataLoaderError` as classified by the spec's `LoadError` taxonomy.
The Python code raises `DataLoaderError` with the three message shapes
`File not found: {path}`, `Failed to parse {path}: {exc}` and
`File {path} contains no data`; each constructor records the same data. -/
inductive LoadError where
  | notFound (path : String)
  | parseFailure (path : String) (detail : String)
  | empty (path : String)
deriving DecidableEq, Repr

/-- The filesystem environment read by the loader.  `resolve` models
`Path(file).expanduser().resolve()`; `read` returns the decoded lines of
the file at a resolved path, or `none` when `path.exists()` is false.
Decoding with the loader's `encoding` is part of `read`. -/
structure FileSystem where
  resolve : String → String
  read : String → Option (List String)

/-- Truncate a line at the first `#`, modelling `pd.read_csv(..., comment="#")`. -/
def stripComment (line : String) : String :=
  String.mk (line.data.takeWhile (· ≠ '#'))

/-- Split a line into whitespace-separated fields, modelling `sep=r"\s+"`. -/
def tokenize (line : String) : List String :=
  ((splitChars Char.isWhitespace line.data).map String.mk).filter (· ≠ "")

/-- Model of `pd.read_csv(path, sep=r"\s+", engine="python", comment="#")`
applied to the decoded lines of a file: comments are stripped, blank lines
are skipped, the first remaining line is the header and the rest are data
rows.  A file with no remaining lines, or a row whose field count differs
from the header's, is a parse failure (the spec treats the parser's
mismatch behaviour as a passthrough parse failure). -/
def parseLines (lines : List String) : Except String (List String × List (List String)) :=
  let rows := ((lines.map stripComment).map tokenize).filter (· ≠ [])
  match rows with
  | [] => .error "No columns to parse from file"
  | header :: body =>
    if body.all fun r => r.length = header.length then .ok (header, body)
    else .error "field count mismatch"

/-- One iteration of `SpaceDelimitedLoader.load`'s loop: resolve the path,
fail with `NotFound` if it does not exist, parse it, fail with `Empty` if
the frame has no data rows (`df.empty`), else build the `DataSet`. -/
def loadOne (fs : FileSystem) (file : String) : Except LoadError DataSet :=
  let path := fs.resolve file
  match fs.read path with
  | none => .error (.notFound path)
  | some lines =>
    match parseLines lines with
    | .error msg => .error (.parseFailure path msg)
    | .ok (header, body) =>
      if body.isEmpty then .error (.empty path)
      else .ok ⟨path, header, ⟨header, body⟩⟩

/-- `SpaceDelimitedLoader.load`: builds one `DataSet` per input file in
order; the first raised `DataLoaderError` aborts the whole call (the
Python loop raises out of the function, discarding the local `datasets`
list).  The loader keeps no state between calls — its only instance field
is the `encoding`, folded here into `fs.read` — so `load` is a pure
function of the filesystem and the path list. -/
def load (fs : FileSystem) : List String → Except LoadError (List DataSet)
  | [] => .ok []
  | f :: rest =>
    match loadOne fs f with
    | .error e => .error e
    | .ok d =>
      match load fs rest with
      | .error e => .error e
      | .ok ds => .ok (d :: ds)

/-! ## Application state (`plot_app.py`) -/

/-- A line drawn by `target_axis.plot(x_data, y_data, label=..., color=...)`:
its label, color, the axis tag of the selection that produced it, and the
scaled x/y data.  Cell strings are interpreted numerically (see `colValues`). -/
structure Line where
  label : String
  color : Option String
  axis : String
  xdata : List PyNum
  ydata : List PyNum
deriving DecidableEq, Repr

/-- The structural content of the matplotlib figure produced by
`_plot_series`: the drawn lines in order, the axis text labels (the right
one only when the twin axis was created), the combined legend labels when
shown, the explicit limit pairs when set, and the log/linear scale of each
axis (the right one only when the twin axis exists). -/
structure Chart where
  lines : List Line
  xlabel : String
  ylabelLeft : String
  ylabelRight : Option String
  legend : Option (List String)
  xlim : Option (Option PyNum × Option PyNum)
  ylimLeft : Option (Option PyNum × Option PyNum)
  ylimRight : Option (Option PyNum × Option PyNum)
  xlog : Bool
  leftLog : Bool
  rightLog : Option Bool
deriving DecidableEq, Repr

/-- The mutable state of `PlotApplication` that the modelled operations
read and write: the dataset and series lists, the palette and the
position of the `itertools.cycle` iterator over it, the Tk string/bool
variables, and the current figure content (`none` before the first plot). -/
structure AppState where
  datasets : List DataSet
  series : List SeriesSelection
  palette : List String
  cursor : Nat
  x_column : String
  series_label : String
  x_label : String
  left_label : String
  right_label : String
  show_legend : Bool
  x_min : String
  x_max : String
  left_y_min : String
  left_y_max : String
  right_y_min : String
  right_y_max : String
  x_scale : String
  left_y_scale : String
  right_y_scale : String
  x_log : Bool
  left_y_log : Bool
  right_y_log : Bool
  figure : Option Chart
deriving DecidableEq

/-- The default matplotlib property-cycle colors (`tab10`), the palette
`_color_cycle` reads from `matplotlib.rcParams["axes.prop_cycle"]` in a
default configuration. -/
def defaultPalette : List String :=
  ["#1f77b4", "#ff7f0e", "#2ca02c", "#d62728", "#9467bd",
   "#8c564b", "#e377c2", "#7f7f7f", "#bcbd22", "#17becf"]

/-- `next(self.color_cycle)` for a cycle that has already been advanced
`c` times: the palette entry at `c` modulo the palette length.  `none`
models the `StopIteration` raised on an empty palette. -/
def nextColor (palette : List String) (c : Nat) : Option String :=
  palette.get? (c % palette.length)

/-- The observable result of `_add_series`.  The `select*` constructors are
the `messagebox.showinfo` early returns, `columnUnavailable` the
`messagebox.showerror` early return, `indexError` the uncaught
`IndexError` from `self.datasets[dataset_index]` on an out-of-range index,
`stopIteration` the uncaught error from an exhausted color cycle, and
`added` the success path. -/
inductive AddOutcome where
  | added
  | selectDataset
  | selectColumn
  | selectXColumn
  | columnUnavailable
  | indexError
  | stopIteration
deriving DecidableEq, Repr

/-- `PlotApplication._add_series(axis)`.  `dataset_index` and `column` are
the current listbox selections (`None` when nothing is selected).  Checks
happen in source order: no dataset, no column, no x column, then the
dataset lookup (which raises on an out-of-range index), then x-column
membership.  On success the label is defaulted from a blank
`series_label_var`, a color is drawn from the cycle (advancing it), the
selection is appended and the label variable is cleared.  Every
non-`added` outcome leaves the state unchanged. -/
def addSeries (s : AppState) (dataset_index : Option Nat) (column : Option String)
    (axis : String) : AddOutcome × AppState :=
  match dataset_index with
  | none => (.selectDataset, s)
  | some di =>
    match column with
    | none => (.selectColumn, s)
    | some col =>
      if col = "" then (.selectColumn, s)
      else if s.x_column = "" then (.selectXColumn, s)
      else
        match s.datasets.get? di with
        | none => (.indexError, s)
        | some dataset =>
          if s.x_column ∉ dataset.columns then (.columnUnavailable, s)
          else
            let label :=
              if pstrip s.series_label = "" then dataset.name ++ ": " ++ col
              else pstrip s.series_label
            match nextColor s.palette s.cursor with
            | none => (.stopIteration, s)
            | some color =>
              (.added,
               { s with
                 series := s.series ++ [⟨di, col, axis, label, some color⟩]
                 cursor := s.cursor + 1
                 series_label := "" })

/-- The master-list indices shown in the listbox of the given axis, as
rebuilt by `_refresh_series_lists`: an index goes to the left list when
its selection's axis equals `"left"`, otherwise to the right list. -/
def seriesIndices (l : List SeriesSelection) (axis : String) : List Nat :=
  (List.range l.length).filter fun i =>
    match l.get? i with
    | some sel => if axis = "left" then sel.axis = "left" else sel.axis ≠ "left"
    | none => false

/-- The ordered selections displayed for one axis (the spec's
`selectionsForAxis`): the stable filter of the master list underlying
`_refresh_series_lists`. -/
def selectionsForAxis (l : List SeriesSelection) (axis : String) : List SeriesSelection :=
  if axis = "left" then l.filter fun sel => sel.axis = "left"
  else l.filter fun sel => sel.axis ≠ "left"

/-- `PlotApplication._remove_series(axis)` with listbox row `row` selected:
map the row back to the master index through the axis's index list and
delete that master-list entry; no-op when nothing is selected or the row
is stale. -/
def removeSeries (l : List SeriesSelection) (axis : String) (row : Nat) :
    List SeriesSelection :=
  match (seriesIndices l axis).get? row with
  | none => l
  | some target => l.eraseIdx target

/-! ## Render pipeline (`plot_app.py`, `_plot_series`) -/

/-- `PlotApplication._get_float_from_var(var, label, default)`: strip the
entry text; an empty field yields the default, a parsing field its value,
and a non-parsing field shows an error naming `label` and raises (the
`error` case carries the label). -/
def getFloatFromVar (v : String) (label : String) (dflt : Option PyNum) :
    Except String (Option PyNum) :=
  let value := pstrip v
  if value = "" then .ok dflt
  else
    match pyFloat value with
    | some x => .ok (some x)
    | none => .error label

/-- The nine numeric fields parsed at the top of `_plot_series`: the three
scale multipliers (empty defaults to `1.0`) and the six optional range
bounds (empty means no bound). -/
structure Config where
  xScale : Option PyNum
  lScale : Option PyNum
  rScale : Option PyNum
  xMin : Option PyNum
  xMax : Option PyNum
  lMin : Option PyNum
  lMax : Option PyNum
  rMin : Option PyNum
  rMax : Option PyNum
deriving DecidableEq, Repr

/-- The `try` block of `_plot_series`, parsing the nine numeric entry
fields in source order; the first failure aborts with the failing field's
label. -/
def parseConfig (s : AppState) : Except String Config :=
  match getFloatFromVar s.x_scale "X axis scale" (some PyNum.one) with
  | .error l => .error l
  | .ok xS =>
  match getFloatFromVar s.left_y_scale "Left axis scale" (some PyNum.one) with
  | .error l => .error l
  | .ok lS =>
  match getFloatFromVar s.right_y_scale "Right axis scale" (some PyNum.one) with
  | .error l => .error l
  | .ok rS =>
  match getFloatFromVar s.x_min "X axis minimum" none with
  | .error l => .error l
  | .ok xm =>
  match getFloatFromVar s.x_max "X axis maximum" none with
  | .error l => .error l
  | .ok xM =>
  match getFloatFromVar s.left_y_min "Left axis minimum" none with
  | .error l => .error l
  | .ok lm =>
  match getFloatFromVar s.left_y_max "Left axis maximum" none with
  | .error l => .error l
  | .ok lM =>
  match getFloatFromVar s.right_y_min "Right axis minimum" none with
  | .error l => .error l
  | .ok rm =>
  match getFloatFromVar s.right_y_max "Right axis maximum" none with
  | .error l => .error l
  | .ok rM => .ok ⟨xS, lS, rS, xm, xM, lm, lM, rm, rM⟩

/-- The numeric values of column `c` of a frame (`dataset.data[c]`).
pandas infers numeric dtypes at load time; here each cell string is read
through the `pyFloat` model, with `0` standing in for non-numeric cells
(no claim depends on non-numeric data). -/
def colValues (df : DFrame) (c : String) : List PyNum :=
  match df.columns.findIdx? (· = c) with
  | none => []
  | some idx => df.rows.map fun r => (pyFloat (r.getD idx "")).getD ⟨0, 1⟩

/-- The two `messagebox.showwarning` messages of the plot loop: the
selection's own column, or the configured x column, is missing from the
selection's dataset. -/
inductive Warning where
  | seriesColumnMissing (column : String) (datasetName : String)
  | xColumnMissing (column : String) (datasetName : String)
deriving DecidableEq, Repr

/-- The warning (if any) the plot loop emits for one selection, checking
the selection's column first and then the x column, against
`dataset.data.columns`. -/
def warnOf (s : AppState) (sel : SeriesSelection) : Option Warning :=
  match s.datasets[sel.dataset_index]? with
  | none => none
  | some d =>
    if sel.column ∉ d.data.columns then some (.seriesColumnMissing sel.column d.name)
    else if s.x_column ∉ d.data.columns then some (.xColumnMissing s.x_column d.name)
    else none

/-- Whether the plot loop actually draws a line for this selection: its
dataset exists and both its column and the x column are present. -/
def selValid (s : AppState) (sel : SeriesSelection) : Prop :=
  ∃ d, s.datasets[sel.dataset_index]? = some d ∧
    sel.column ∈ d.data.columns ∧ s.x_column ∈ d.data.columns

instance (s : AppState) (sel : SeriesSelection) : Decidable (selValid s sel) := by
  unfold selValid
  cases s.datasets[sel.dataset_index]? with
  | none => exact .isFalse (by simp)
  | some d => exact decidable_of_iff (sel.column ∈ d.data.columns ∧ s.x_column ∈ d.data.columns) (by simp)

/-- The line drawn for one selection, when it passes the column checks:
x data scaled by the x scale, y data scaled by the selection's axis's
scale, carrying the selection's label and color.  `none` when the
selection is skipped. -/
def lineOf (s : AppState) (cfg : Config) (sel : SeriesSelection) : Option Line :=
  match s.datasets[sel.dataset_index]? with
  | none => none
  | some d =>
    if sel.column ∈ d.data.columns ∧ s.x_column ∈ d.data.columns then
      let xs := (colValues d.data s.x_column).map (PyNum.mul · (cfg.xScale.getD PyNum.one))
      let yscale := if sel.axis = "left" then cfg.lScale.getD PyNum.one else cfg.rScale.getD PyNum.one
      let ys := (colValues d.data sel.column).map (PyNum.mul · yscale)
      some ⟨sel.label, sel.color, sel.axis, xs, ys⟩
    else none

/-- The figure content built by the body of `_plot_series` after the
fail-fast checks and numeric parsing: lines in selection order; the twin
right axis exists exactly when some drawn selection targets an axis other
than `"left"`; axis labels fall back to the x column name / fixed default
strings; the legend is drawn when enabled and at least one line exists;
limits are applied per axis only when a bound was supplied (the right
axis's only when it exists); log scales are applied per axis. -/
def buildChart (s : AppState) (cfg : Config) : Chart :=
  let lines := s.series.filterMap (lineOf s cfg)
  let hasRight := s.series.any fun sel => decide (selValid s sel) && sel.axis != "left"
  { lines := lines
    xlabel := if pstrip s.x_label = "" then s.x_column else pstrip s.x_label
    ylabelLeft := if pstrip s.left_label = "" then "Left Axis" else pstrip s.left_label
    ylabelRight :=
      if hasRight then
        some (if pstrip s.right_label = "" then "Right Axis" else pstrip s.right_label)
      else none
    legend :=
      if s.show_legend ∧ lines ≠ [] then some (lines.map (·.label)) else none
    xlim := if cfg.xMin ≠ none ∨ cfg.xMax ≠ none then some (cfg.xMin, cfg.xMax) else none
    ylimLeft := if cfg.lMin ≠ none ∨ cfg.lMax ≠ none then some (cfg.lMin, cfg.lMax) else none
    ylimRight :=
      if hasRight ∧ (cfg.rMin ≠ none ∨ cfg.rMax ≠ none) then some (cfg.rMin, cfg.rMax)
      else none
    xlog := s.x_log
    leftLog := s.left_y_log
    rightLog := if hasRight then some s.right_y_log else none }

/-- The observable result of `_plot_series`: the two `showinfo` fail-fast
early returns, a numeric-parse abort naming the failing field, the
uncaught `IndexError` from `self.datasets[selection.dataset_index]` on a
stale dataset index, or success carrying the figure content and the
collected per-series warnings. -/
inductive RenderOutcome where
  | noSeries
  | noXColumn
  | invalidNumber (field : String)
  | indexError
  | ok (chart : Chart) (warnings : List Warning)
deriving DecidableEq, Repr

/-- `PlotApplication._plot_series`.  Fail fast when no series are selected
or no x column is set; parse the numeric fields, aborting on the first
invalid one (all before the figure is touched); then rebuild the figure
from scratch.  A selection with an out-of-range dataset index raises
`IndexError` (tables are never removed, so this does not occur in the
GUI; the partial figure mutation before such a crash is not modelled).
Warnings never abort: once parsing passed and indices are in range the
outcome is `ok`.  Only the `figure` field of the state is written. -/
def render (s : AppState) : RenderOutcome × AppState :=
  if s.series.isEmpty then (.noSeries, s)
  else if s.x_column = "" then (.noXColumn, s)
  else
    match parseConfig s with
    | .error field => (.invalidNumber field, s)
    | .ok cfg =>
      if s.series.all fun sel => decide (sel.dataset_index < s.datasets.length) then
        let chart := buildChart s cfg
        (.ok chart (s.series.filterMap (warnOf s)), { s with figure := some chart })
      else (.indexError, s)

/-! ## Decidability and fixtures -/

instance {ε α : Type} [DecidableEq ε] [DecidableEq α] : DecidableEq (Except ε α) :=
  fun x y =>
  match x, y with
  | .ok a, .ok b =>
    if h : a = b then .isTrue (by rw [h]) else .isFalse (fun hc => h (Except.ok.inj hc))
  | .error a, .error b =>
    if h : a = b then .isTrue (by rw [h]) else .isFalse (fun hc => h (Except.error.inj hc))
  | .ok _, .error _ => .isFalse (fun hc => Except.noConfusion hc)
  | .error _, .ok _ => .isFalse (fun hc => Except.noConfusion hc)

/-- `{ s with figure := f }`, named so theorem statements can speak about
which fields `render` writes. -/
def setFigure (s : AppState) (f : Option Chart) : AppState := { s with figure := f }

/-- A concrete filesystem for witnesses: `f1.txt` is a two-column file with
two data rows, `f3.txt` a three-column file with two data rows, `hdr.txt`
a header-only file; nothing else exists. -/
def fsW : FileSystem :=
  { resolve := fun p => "/abs/" ++ p
    read := fun p =>
      if p = "/abs/f1.txt" then some ["a b", "1 2", "3 4"]
      else if p = "/abs/f3.txt" then some ["a b c", "1 2 3", "4 5 6"]
      else if p = "/abs/hdr.txt" then some ["a b"]
      else none }

/-- The dataset `load` produces for `f1.txt`. -/
def dW : DataSet := ⟨"/abs/f1.txt", ["a", "b"], ⟨["a", "b"], [["1", "2"], ["3", "4"]]⟩⟩

/-- A concrete application state for witnesses: `f1.txt` loaded, x column
`"a"`, no series yet, default palette at cursor 0, all numeric fields at
their initial values. -/
def sW : AppState :=
  { datasets := [dW], series := [], palette := defaultPalette, cursor := 0
    x_column := "a", series_label := "", x_label := "", left_label := ""
    right_label := "", show_legend := true, x_min := "", x_max := ""
    left_y_min := "", left_y_max := "", right_y_min := "", right_y_max := ""
    x_scale := "1", left_y_scale := "1", right_y_scale := "1", x_log := false
    left_y_log := false, right_y_log := false, figure := none }

/-! ## Claims -/

/-- **C4.** `render` fails fast with `NoSeries` whenever the selection list
is empty, and with `NoXColumn` whenever it is non-empty but the x-axis
column name is unset; in either case the state — in particular the figure
— is untouched, so no chart is produced. -/
theorem render_fail_fast_no_series_no_x_column (s : AppState) :
    (s.series = [] → render s = (.noSeries, s)) ∧
    (s.series ≠ [] → s.x_column = "" → render s = (.noXColumn, s)) := by
  constructor
  · intro h
    simp [render, h]
  · intro h1 h2
    simp [render, h1, h2]

/-- Witness for `render_fail_fast_no_series_no_x_column`: the empty-series
state yields `noSeries`, and a state with a series but a blank x column
yields `noXColumn`. -/
theorem render_fail_fast_no_series_no_x_column_witness :
    render sW = (.noSeries, sW) ∧
    render { sW with series := [⟨0, "b", "left", "L", none⟩], x_column := "" } =
      (.noXColumn, { sW with series := [⟨0, "b", "left", "L", none⟩], x_column := "" }) :=
  ⟨(render_fail_fast_no_series_no_x_column sW).1 (by decide),
   (render_fail_fast_no_series_no_x_column
      { sW with series := [⟨0, "b", "left", "L", none⟩], x_column := "" }).2
      (by decide) (by decide)⟩

/-- **C10.** `_add_series` additionally requires the configured x-axis
column to be set and present in the selected dataset's columns: with a
dataset and a non-empty column selected, a blank x column aborts with the
"Select X column" dialog, and an x column absent from the dataset's
columns aborts with the "Column unavailable" error; in both cases the
state (hence the selection list) is unchanged. -/
theorem addSeries_requires_x_column_present (s : AppState) (di : Nat)
    (c axis : String) (hc : c ≠ "") :
    (s.x_column = "" → addSeries s (some di) (some c) axis = (.selectXColumn, s)) ∧
    (∀ d, s.datasets[di]? = some d → s.x_column ≠ "" → s.x_column ∉ d.columns →
      addSeries s (some di) (some c) axis = (.columnUnavailable, s)) := by
  constructor
  · intro h
    simp [addSeries, hc, h]
  · intro d hd hx hmem
    simp [addSeries, hc, hx, hd, hmem]

/-- Witness for `addSeries_requires_x_column_present`: with x column
`"zz"`, absent from `f1.txt`'s columns, adding the valid column `"b"`
fails and appends nothing. -/
theorem addSeries_requires_x_column_present_witness :
    addSeries { sW with x_column := "zz" } (some 0) (some "b") "left" =
      (.columnUnavailable, { sW with x_column := "zz" }) :=
  (addSeries_requires_x_column_present { sW with x_column := "zz" } 0 "b" "left"
      (by decide)).2 dW (by decide) (by decide) (by decide)

/-- **C3, counterexample.** `_add_series` does not validate the named
column against the dataset's columns, nor the axis tag: with `"z"` absent
from `f1.txt`'s columns and the axis tag `"up"`, the call nevertheless
succeeds and appends a selection, contradicting the claim that it fails
with a validation error and leaves the selection list unchanged. -/
theorem addSeries_accepts_invalid_column_and_axis :
    "z" ∉ dW.columns ∧ "up" ≠ "left" ∧ "up" ≠ "right" ∧ sW.series = [] ∧
    (addSeries sW (some 0) (some "z") "up").1 = .added ∧
    (addSeries sW (some 0) (some "z") "up").2.series =
      [⟨0, "z", "up", "f1: z", some "#1f77b4"⟩] := by
  decide

/-- **C3, amended.** Every non-`added` outcome of `_add_series` leaves the
state (hence the ordered selection list) unchanged, and an out-of-range
table index aborts with an uncaught `IndexError` rather than a validation
dialog; the named column's membership in the table and the axis tag are
not validated at all. -/
theorem addSeries_failures_leave_selections_unchanged (s : AppState)
    (di : Option Nat) (col : Option String) (axis : String) :
    ((addSeries s di col axis).1 ≠ .added → (addSeries s di col axis).2 = s) ∧
    (∀ i c, di = some i → col = some c → c ≠ "" → s.x_column ≠ "" →
      s.datasets.length ≤ i → addSeries s di col axis = (.indexError, s)) := by
  constructor
  · intro hne
    match di with
    | none => rfl
    | some i =>
      match col with
      | none => rfl
      | some c =>
        by_cases hc : c = ""
        · simp [addSeries, hc]
        · by_cases hx : s.x_column = ""
          · simp [addSeries, hc, hx]
          · cases hd : s.datasets[i]? with
            | none => simp [addSeries, hc, hx, hd]
            | some d =>
              by_cases hmem : s.x_column ∈ d.columns
              · cases hcol : nextColor s.palette s.cursor with
                | none => simp [addSeries, hc, hx, hd, hmem, hcol]
                | some clr =>
                  exact absurd (by simp [addSeries, hc, hx, hd, hmem, hcol]) hne
              · simp [addSeries, hc, hx, hd, hmem]
  · intro i c hdi hcol hc hx hlen
    subst hdi; subst hcol
    have hd : s.datasets[i]? = none := List.getElem?_eq_none hlen
    simp [addSeries, hc, hx, hd]

/-- Witness for `addSeries_failures_leave_selections_unchanged`: an
out-of-range dataset index raises `IndexError` and changes nothing. -/
theorem addSeries_failures_leave_selections_unchanged_witness :
    addSeries sW (some 5) (some "b") "left" = (.indexError, sW) :=
  (addSeries_failures_leave_selections_unchanged sW (some 5) (some "b") "left").2
    5 "b" rfl rfl (by decide) (by decide) (by decide)

/-- **C5.** For every path: when the resolved path does not exist, `load`
fails with `NotFound`; when parsing succeeds with zero data rows (e.g. a
header-only file), it fails with `Empty`; and a well-formed file with a
header and data rows yields a `DataSet` with exactly those column names
and rows. -/
theorem loadOne_not_found_empty_well_formed (fs : FileSystem) (p : String) :
    (fs.read (fs.resolve p) = none →
      loadOne fs p = .error (.notFound (fs.resolve p))) ∧
    (∀ lines header, fs.read (fs.resolve p) = some lines →
      parseLines lines = .ok (header, []) →
      loadOne fs p = .error (.empty (fs.resolve p))) ∧
    (∀ lines header body, fs.read (fs.resolve p) = some lines →
      parseLines lines = .ok (header, body) → body ≠ [] →
      loadOne fs p = .ok ⟨fs.resolve p, header, ⟨header, body⟩⟩) := by
  refine ⟨?_, ?_, ?_⟩
  · intro h
    simp [loadOne, h]
  · intro lines header hr hp
    simp [loadOne, hr, hp]
  · intro lines header body hr hp hb
    cases body with
    | nil => exact absurd rfl hb
    | cons b bs => simp [loadOne, hr, hp]

/-- Witness for `loadOne_not_found_empty_well_formed`: a three-column file
with two data rows loads into a table with those columns and two rows; a
missing path gives `NotFound`; a header-only file gives `Empty`. -/
theorem loadOne_not_found_empty_well_formed_witness :
    loadOne fsW "f3.txt" =
      .ok ⟨"/abs/f3.txt", ["a", "b", "c"],
            ⟨["a", "b", "c"], [["1", "2", "3"], ["4", "5", "6"]]⟩⟩ ∧
    ([["1", "2", "3"], ["4", "5", "6"]] : List (List String)).length = 2 ∧
    loadOne fsW "missing.txt" = .error (.notFound "/abs/missing.txt") ∧
    loadOne fsW "hdr.txt" = .error (.empty "/abs/hdr.txt") :=
  ⟨(loadOne_not_found_empty_well_formed fsW "f3.txt").2.2
      ["a b c", "1 2 3", "4 5 6"] ["a", "b", "c"] [["1", "2", "3"], ["4", "5", "6"]]
      (by decide) (by decide) (by decide),
   by decide,
   (loadOne_not_found_empty_well_formed fsW "missing.txt").1 (by decide),
   (loadOne_not_found_empty_well_formed fsW "hdr.txt").2.1 ["a b"] ["a", "b"]
      (by decide) (by decide)⟩

/-- **C1.** `load` returns one table per input path, in input order (on
success the result has one entry per path and the `i`-th entry is exactly
what loading the `i`-th path alone yields), and a failure on any path
aborts the whole call with that single error while every earlier path had
succeeded — the `Except` result carries no partial list.  The embedding
types `load` as a pure function of the filesystem and the path list, as in
the source, whose only loader state is the immutable encoding: no state is
retained between calls. -/
theorem load_one_table_per_path_abort_on_failure (fs : FileSystem) (files : List String) :
    (∀ ds, load fs files = .ok ds →
      ds.length = files.length ∧
      ∀ i, (hf : i < files.length) → (hd : i < ds.length) →
        loadOne fs (files.get ⟨i, hf⟩) = .ok (ds.get ⟨i, hd⟩)) ∧
    (∀ e, load fs files = .error e →
      ∃ i, ∃ hf : i < files.length,
        loadOne fs (files.get ⟨i, hf⟩) = .error e ∧
        ∀ j, (hj : j < files.length) → j < i →
          ∃ d, loadOne fs (files.get ⟨j, hj⟩) = .ok d) := by
  induction files with
  | nil =>
    constructor
    · intro ds h
      have hds : ([] : List DataSet) = ds := by simpa [load] using h
      subst hds
      exact ⟨rfl, fun i hf _ => absurd hf (Nat.not_lt_zero i)⟩
    · intro e h
      simp [load] at h
  | cons f rest ih =>
    constructor
    · intro ds h
      cases hl : loadOne fs f with
      | error e0 =>
        simp only [load, hl] at h
        exact Except.noConfusion h
      | ok d =>
        cases hr : load fs rest with
        | error e1 =>
          simp only [load, hl, hr] at h
          exact Except.noConfusion h
        | ok ds1 =>
          simp only [load, hl, hr, Except.ok.injEq] at h
          subst h
          obtain ⟨hlen, hidx⟩ := ih.1 ds1 hr
          refine ⟨by simp [hlen], ?_⟩
          intro i hf hd
          cases i with
          | zero => exact hl
          | succ n =>
            exact hidx n (Nat.lt_of_succ_lt_succ hf) (Nat.lt_of_succ_lt_succ hd)
    · intro e h
      cases hl : loadOne fs f with
      | error e0 =>
        simp only [load, hl, Except.error.injEq] at h
        refine ⟨0, Nat.succ_pos _, ?_, ?_⟩
        · show loadOne fs f = .error e
          rw [hl, h]
        · intro j hj hj0
          exact absurd hj0 (Nat.not_lt_zero j)
      | ok d =>
        cases hr : load fs rest with
        | ok ds1 =>
          simp only [load, hl, hr] at h
          exact Except.noConfusion h
        | error e1 =>
          simp only [load, hl, hr, Except.error.injEq] at h
          obtain ⟨i, hi, herr, hpre⟩ := ih.2 e1 hr
          refine ⟨i + 1, Nat.succ_lt_succ hi, ?_, ?_⟩
          · show loadOne fs (rest.get ⟨i, hi⟩) = .error e
            rw [herr, h]
          · intro j hj hjlt
            cases j with
            | zero => exact ⟨d, hl⟩
            | succ k =>
              exact hpre k (Nat.lt_of_succ_lt_succ hj) (Nat.lt_of_succ_lt_succ hjlt)

/-- Witness for `load_one_table_per_path_abort_on_failure`: loading
`f1.txt` twice yields two tables (one per path), and a missing second path
aborts the whole call with its `NotFound` error while the first path had
succeeded. -/
theorem load_one_table_per_path_abort_on_failure_witness :
    ([dW, dW].length = (["f1.txt", "f1.txt"] : List String).length) ∧
    (∃ i, ∃ hf : i < (["f1.txt", "missing.txt"] : List String).length,
      loadOne fsW ((["f1.txt", "missing.txt"] : List String).get ⟨i, hf⟩) =
        .error (.notFound "/abs/missing.txt") ∧
      ∀ j, (hj : j < (["f1.txt", "missing.txt"] : List String).length) → j < i →
        ∃ d, loadOne fsW ((["f1.txt", "missing.txt"] : List String).get ⟨j, hj⟩) =
          .ok d) :=
  ⟨((load_one_table_per_path_abort_on_failure fsW ["f1.txt", "f1.txt"]).1
      [dW, dW] (by decide)).1,
   (load_one_table_per_path_abort_on_failure fsW ["f1.txt", "missing.txt"]).2
      (.notFound "/abs/missing.txt") (by decide)⟩

/-- **C7.** `selectionsForAxis` is a stable filter of the master selection
list (a sublist, preserving insertion order), and after `removeSeries`
deletes the selection at master index `target`, `selectionsForAxis` never
returns the removed selection (for duplicate-free lists) while the
remaining selections keep their relative order (the result is a sublist of
the original axis view). -/
theorem selectionsForAxis_stable_filter_and_remove (l : List SeriesSelection)
    (a b : String) (row target : Nat) :
    (selectionsForAxis l a).Sublist l ∧
    ((seriesIndices l b).get? row = some target → l.Nodup →
      (selectionsForAxis (removeSeries l b row) a).Sublist (selectionsForAxis l a) ∧
      ∀ ht : target < l.length,
        l.get ⟨target, ht⟩ ∉ selectionsForAxis (removeSeries l b row) a) := by
  constructor
  · unfold selectionsForAxis
    split
    · exact List.filter_sublist l
    · exact List.filter_sublist l
  · intro hrow hnd
    have hrm : removeSeries l b row = l.eraseIdx target := by
      unfold removeSeries
      rw [hrow]
    constructor
    · rw [hrm]
      unfold selectionsForAxis
      split
      · exact (List.eraseIdx_sublist l target).filter _
      · exact (List.eraseIdx_sublist l target).filter _
    · intro ht hmem
      rw [hrm] at hmem
      have hmem' : l.get ⟨target, ht⟩ ∈ l.eraseIdx target := by
        unfold selectionsForAxis at hmem
        split at hmem
        · exact (List.mem_filter.mp hmem).1
        · exact (List.mem_filter.mp hmem).1
      rw [List.mem_eraseIdx_iff_getElem] at hmem'
      obtain ⟨i, hi, hne, hieq⟩ := hmem'
      have hieq' : l[i] = l[target] := hieq.trans (List.get_eq_getElem l _)
      exact hne ((hnd.getElem_inj_iff).mp hieq')

/-- Witness for `selectionsForAxis_stable_filter_and_remove`: on a
three-element selection list, the left view is a sublist, and after
removing row 0 of the right view (master index 1) the removed selection is
gone from the right view, which stays a sublist of the old right view. -/
theorem selectionsForAxis_stable_filter_and_remove_witness :
    (selectionsForAxis
        [⟨0, "b", "left", "A", none⟩, ⟨0, "b", "right", "B", none⟩,
         ⟨0, "a", "left", "C", none⟩] "left").Sublist
      [⟨0, "b", "left", "A", none⟩, ⟨0, "b", "right", "B", none⟩,
       ⟨0, "a", "left", "C", none⟩] ∧
    (selectionsForAxis
        (removeSeries
          [⟨0, "b", "left", "A", none⟩, ⟨0, "b", "right", "B", none⟩,
           ⟨0, "a", "left", "C", none⟩] "right" 0) "right").Sublist
      (selectionsForAxis
        [⟨0, "b", "left", "A", none⟩, ⟨0, "b", "right", "B", none⟩,
         ⟨0, "a", "left", "C", none⟩] "right") ∧
    (⟨0, "b", "right", "B", none⟩ : SeriesSelection) ∉
      selectionsForAxis
        (removeSeries
          [⟨0, "b", "left", "A", none⟩, ⟨0, "b", "right", "B", none⟩,
           ⟨0, "a", "left", "C", none⟩] "right" 0) "right" := by
  have h := selectionsForAxis_stable_filter_and_remove
    [⟨0, "b", "left", "A", none⟩, ⟨0, "b", "right", "B", none⟩,
     ⟨0, "a", "left", "C", none⟩] "right" "right" 0 1
  have h2 := h.2 (by decide) (by decide)
  exact ⟨(selectionsForAxis_stable_filter_and_remove
      [⟨0, "b", "left", "A", none⟩, ⟨0, "b", "right", "B", none⟩,
       ⟨0, "a", "left", "C", none⟩] "left" "right" 0 1).1,
    h2.1, h2.2 (by decide)⟩

/-- **C6.** A successful `_add_series` with a blank label field appends a
selection labelled `"<table name>: <column>"`, with color drawn from the
palette at the cursor position modulo the palette length, and advances the
cursor by one; with the default matplotlib palette, the colors drawn at
any three consecutive cursor positions are pairwise distinct, so three
adds give three distinct colors in a deterministic order. -/
theorem addSeries_default_label_and_palette_cursor (s : AppState) (di : Nat)
    (c axis : String) (d : DataSet) (hc : c ≠ "") (hx : s.x_column ≠ "")
    (hd : s.datasets[di]? = some d) (hxc : s.x_column ∈ d.columns)
    (hblank : pstrip s.series_label = "") (hpal : s.palette = defaultPalette) :
    (addSeries s (some di) (some c) axis).1 = .added ∧
    (addSeries s (some di) (some c) axis).2.series =
      s.series ++ [⟨di, c, axis, d.name ++ ": " ++ c,
        defaultPalette.get? (s.cursor % defaultPalette.length)⟩] ∧
    (addSeries s (some di) (some c) axis).2.cursor = s.cursor + 1 ∧
    (∀ n m, n < 3 → m < 3 → n ≠ m →
      defaultPalette.get? ((s.cursor + n) % defaultPalette.length) ≠
        defaultPalette.get? ((s.cursor + m) % defaultPalette.length)) := by
  have hlt : s.cursor % defaultPalette.length < defaultPalette.length :=
    Nat.mod_lt _ (by decide)
  have hclr : nextColor s.palette s.cursor =
      some (defaultPalette.get ⟨s.cursor % defaultPalette.length, hlt⟩) := by
    rw [hpal]
    exact List.get?_eq_get hlt
  refine ⟨?_, ?_, ?_, ?_⟩
  · simp [addSeries, hc, hx, hd, hxc, hclr]
  · simp [addSeries, hc, hx, hd, hxc, hblank, hclr, List.get?_eq_get hlt]
  · simp [addSeries, hc, hx, hd, hxc, hclr]
  · intro n m hn hm hneq heq
    rw [List.get?_eq_getElem?, List.get?_eq_getElem?] at heq
    have h0 : (s.cursor + n) % defaultPalette.length < defaultPalette.length :=
      Nat.mod_lt _ (by decide)
    have hnm := List.getElem?_inj h0 (by decide) heq
    rw [show defaultPalette.length = 10 from rfl] at hnm
    omega

/-- Witness for `addSeries_default_label_and_palette_cursor`: adding
column `"b"` of `f1.txt` with a blank label appends the selection labelled
`"f1: b"` colored with palette entry 0, advances the cursor to 1, and the
first three palette entries are pairwise distinct. -/
theorem addSeries_default_label_and_palette_cursor_witness :
    (addSeries sW (some 0) (some "b") "left").1 = .added ∧
    (addSeries sW (some 0) (some "b") "left").2.series =
      [⟨0, "b", "left", "f1: b", defaultPalette.get? 0⟩] ∧
    (addSeries sW (some 0) (some "b") "left").2.cursor = 1 ∧
    defaultPalette.get? 0 ≠ defaultPalette.get? 1 ∧
    defaultPalette.get? 0 ≠ defaultPalette.get? 2 ∧
    defaultPalette.get? 1 ≠ defaultPalette.get? 2 := by
  have h := addSeries_default_label_and_palette_cursor sW 0 "b" "left" dW
    (by decide) (by decide) (by decide) (by decide) (by decide) (by decide)
  exact ⟨h.1, h.2.1, h.2.2.1,
    h.2.2.2 0 1 (by decide) (by decide) (by decide),
    h.2.2.2 0 2 (by decide) (by decide) (by decide),
    h.2.2.2 1 2 (by decide) (by decide) (by decide)⟩

/-- An empty (after stripping) entry field yields the supplied default. -/
theorem getFloatFromVar_blank (v label : String) (dflt : Option PyNum)
    (h : pstrip v = "") : getFloatFromVar v label dflt = .ok dflt := by
  simp [getFloatFromVar, h]

/-- A non-empty entry field that `float()` rejects yields the error naming
the field. -/
theorem getFloatFromVar_invalid (v label : String) (dflt : Option PyNum)
    (h1 : pstrip v ≠ "") (h2 : pyFloat (pstrip v) = none) :
    getFloatFromVar v label dflt = .error label := by
  simp [getFloatFromVar, h1, h2]

/-- **C8.** Every non-empty scale or range field whose stripped text
`float()` rejects makes `_get_float_from_var` fail naming that field, and
any such failure in `parseConfig` aborts the whole render with
`InvalidNumber` for the first failing field, leaving the state untouched;
an empty range field parses to no bound (`none`) and an empty scale field
to the default `1.0`. -/
theorem render_invalid_number_and_field_defaults (v label : String)
    (dflt : Option PyNum) (s : AppState) :
    (pstrip v ≠ "" → pyFloat (pstrip v) = none →
      getFloatFromVar v label dflt = .error label) ∧
    (pstrip v = "" → getFloatFromVar v label dflt = .ok dflt) ∧
    (∀ e, s.series ≠ [] → s.x_column ≠ "" → parseConfig s = .error e →
      render s = (.invalidNumber e, s)) ∧
    (∀ cfg, parseConfig s = .ok cfg →
      (pstrip s.x_scale = "" → cfg.xScale = some PyNum.one) ∧
      (pstrip s.left_y_scale = "" → cfg.lScale = some PyNum.one) ∧
      (pstrip s.right_y_scale = "" → cfg.rScale = some PyNum.one) ∧
      (pstrip s.x_min = "" → cfg.xMin = none) ∧
      (pstrip s.x_max = "" → cfg.xMax = none) ∧
      (pstrip s.left_y_min = "" → cfg.lMin = none) ∧
      (pstrip s.left_y_max = "" → cfg.lMax = none) ∧
      (pstrip s.right_y_min = "" → cfg.rMin = none) ∧
      (pstrip s.right_y_max = "" → cfg.rMax = none)) := by
  refine ⟨getFloatFromVar_invalid v label dflt, getFloatFromVar_blank v label dflt,
    ?_, ?_⟩
  · intro e hne hx hpc
    simp [render, hne, hx, hpc]
  · intro cfg hcfg
    unfold parseConfig at hcfg
    cases h1 : getFloatFromVar s.x_scale "X axis scale" (some PyNum.one) with
    | error l =>
      simp only [h1] at hcfg
      exact Except.noConfusion hcfg
    | ok x1 =>
    simp only [h1] at hcfg
    cases h2 : getFloatFromVar s.left_y_scale "Left axis scale" (some PyNum.one) with
    | error l =>
      simp only [h2] at hcfg
      exact Except.noConfusion hcfg
    | ok x2 =>
    simp only [h2] at hcfg
    cases h3 : getFloatFromVar s.right_y_scale "Right axis scale" (some PyNum.one) with
    | error l =>
      simp only [h3] at hcfg
      exact Except.noConfusion hcfg
    | ok x3 =>
    simp only [h3] at hcfg
    cases h4 : getFloatFromVar s.x_min "X axis minimum" none with
    | error l =>
      simp only [h4] at hcfg
      exact Except.noConfusion hcfg
    | ok x4 =>
    simp only [h4] at hcfg
    cases h5 : getFloatFromVar s.x_max "X axis maximum" none with
    | error l =>
      simp only [h5] at hcfg
      exact Except.noConfusion hcfg
    | ok x5 =>
    simp only [h5] at hcfg
    cases h6 : getFloatFromVar s.left_y_min "Left axis minimum" none with
    | error l =>
      simp only [h6] at hcfg
      exact Except.noConfusion hcfg
    | ok x6 =>
    simp only [h6] at hcfg
    cases h7 : getFloatFromVar s.left_y_max "Left axis maximum" none with
    | error l =>
      simp only [h7] at hcfg
      exact Except.noConfusion hcfg
    | ok x7 =>
    simp only [h7] at hcfg
    cases h8 : getFloatFromVar s.right_y_min "Right axis minimum" none with
    | error l =>
      simp only [h8] at hcfg
      exact Except.noConfusion hcfg
    | ok x8 =>
    simp only [h8] at hcfg
    cases h9 : getFloatFromVar s.right_y_max "Right axis maximum" none with
    | error l =>
      simp only [h9] at hcfg
      exact Except.noConfusion hcfg
    | ok x9 =>
    simp only [h9] at hcfg
    have hc := Except.ok.inj hcfg
    subst hc
    refine ⟨?_, ?_, ?_, ?_, ?_, ?_, ?_, ?_, ?_⟩
    · intro hb
      exact (Except.ok.inj ((getFloatFromVar_blank s.x_scale "X axis scale" (some PyNum.one) hb).symm.trans h1)).symm
    · intro hb
      exact (Except.ok.inj ((getFloatFromVar_blank s.left_y_scale "Left axis scale" (some PyNum.one) hb).symm.trans h2)).symm
    · intro hb
      exact (Except.ok.inj ((getFloatFromVar_blank s.right_y_scale "Right axis scale" (some PyNum.one) hb).symm.trans h3)).symm
    · intro hb
      exact (Except.ok.inj ((getFloatFromVar_blank s.x_min "X axis minimum" none hb).symm.trans h4)).symm
    · intro hb
      exact (Except.ok.inj ((getFloatFromVar_blank s.x_max "X axis maximum" none hb).symm.trans h5)).symm
    · intro hb
      exact (Except.ok.inj ((getFloatFromVar_blank s.left_y_min "Left axis minimum" none hb).symm.trans h6)).symm
    · intro hb
      exact (Except.ok.inj ((getFloatFromVar_blank s.left_y_max "Left axis maximum" none hb).symm.trans h7)).symm
    · intro hb
      exact (Except.ok.inj ((getFloatFromVar_blank s.right_y_min "Right axis minimum" none hb).symm.trans h8)).symm
    · intro hb
      exact (Except.ok.inj ((getFloatFromVar_blank s.right_y_max "Right axis maximum" none hb).symm.trans h9)).symm

/-- Witness for `render_invalid_number_and_field_defaults`: the text
`"abc"` in the x-scale field makes the render abort with `InvalidNumber`
naming "X axis scale" and leaves the state unchanged; an empty minimum
field parses to no bound and an empty scale field to `1.0`. -/
theorem render_invalid_number_and_field_defaults_witness :
    getFloatFromVar "abc" "X axis scale" (some PyNum.one) = .error "X axis scale" ∧
    getFloatFromVar "" "X axis minimum" none = .ok none ∧
    render { sW with series := [⟨0, "b", "left", "L", none⟩], x_scale := "abc" } =
      (.invalidNumber "X axis scale",
       { sW with series := [⟨0, "b", "left", "L", none⟩], x_scale := "abc" }) ∧
    (⟨some PyNum.one, some PyNum.one, some PyNum.one,
      none, none, none, none, none, none⟩ : Config).xScale = some PyNum.one ∧
    (⟨some PyNum.one, some PyNum.one, some PyNum.one,
      none, none, none, none, none, none⟩ : Config).xMin = none := by
  have h := render_invalid_number_and_field_defaults "abc" "X axis scale"
    (some PyNum.one)
    { sW with series := [⟨0, "b", "left", "L", none⟩], x_scale := "abc" }
  have h0 := render_invalid_number_and_field_defaults "" "X axis minimum" none
    { sW with x_scale := "" }
  have hok := h0.2.2.2
    ⟨some PyNum.one, some PyNum.one, some PyNum.one,
     none, none, none, none, none, none⟩ (by decide)
  exact ⟨h.1 (by decide) (by decide), h0.2.1 (by decide),
    h.2.2.1 "X axis scale" (by decide) (by decide) (by decide),
    hok.1 (by decide), hok.2.2.2.1 (by decide)⟩

/-- `parseConfig` reads no figure state. -/
theorem parseConfig_setFigure (s : AppState) (f : Option Chart) :
    parseConfig (setFigure s f) = parseConfig s := rfl

/-- `buildChart` reads no figure state. -/
theorem buildChart_setFigure (s : AppState) (f : Option Chart) (cfg : Config) :
    buildChart (setFigure s f) cfg = buildChart s cfg := rfl

/-- `warnOf` reads no figure state. -/
theorem warnOf_setFigure (s : AppState) (f : Option Chart) :
    warnOf (setFigure s f) = warnOf s := rfl

/-- The outcome of `render` does not depend on the current figure (the
figure is cleared and rebuilt from scratch, never read). -/
theorem render_fst_setFigure (s : AppState) (f : Option Chart) :
    (render (setFigure s f)).1 = (render s).1 := by
  simp only [render, parseConfig_setFigure, buildChart_setFigure, warnOf_setFigure]
  simp only [setFigure]
  repeat' split
  all_goals rfl

/-- **C9.** `render` reads but does not mutate the tables, selections,
configuration or palette cursor: restoring the figure field of the
post-render state recovers the pre-render state exactly (so only `figure`
was written), and a second consecutive `render` produces a structurally
identical outcome — no hidden mutable state affects the output. -/
theorem render_idempotent_no_hidden_state (s : AppState) :
    setFigure (render s).2 s.figure = s ∧
    (render ((render s).2)).1 = (render s).1 := by
  have hsnd : (render s).2 = s ∨ ∃ c, (render s).2 = setFigure s (some c) := by
    unfold render
    repeat' split
    all_goals first | exact Or.inl rfl | exact Or.inr ⟨_, rfl⟩
  rcases hsnd with h | ⟨c, h⟩
  · rw [h]
    exact ⟨rfl, rfl⟩
  · rw [h]
    exact ⟨rfl, render_fst_setFigure s (some c)⟩

/-- **C2.** Once the fail-fast checks and numeric parsing succeed (and all
dataset indices are in range, the session invariant), `render` always
returns `ok` — per-series warnings never escalate to a render failure.
Every selection whose own column or the x column is missing from its dataset
is skipped (it produces no line) and surfaces a non-fatal warning in the
collected warning list, while every valid selection produces a line that
is drawn in the chart. -/
theorem render_skips_missing_columns_nonfatally (s : AppState) (cfg : Config)
    (hne : s.series ≠ []) (hx : s.x_column ≠ "")
    (hcfg : parseConfig s = .ok cfg)
    (hidx : ∀ sel ∈ s.series, sel.dataset_index < s.datasets.length) :
    render s = (.ok (buildChart s cfg) (s.series.filterMap (warnOf s)),
      setFigure s (some (buildChart s cfg))) ∧
    (∀ sel ∈ s.series, ¬ selValid s sel →
      lineOf s cfg sel = none ∧
      ∃ w, warnOf s sel = some w ∧ w ∈ s.series.filterMap (warnOf s)) ∧
    (∀ sel ∈ s.series, selValid s sel →
      ∃ ln, lineOf s cfg sel = some ln ∧ ln ∈ (buildChart s cfg).lines) := by
  refine ⟨?_, ?_, ?_⟩
  · have hall : (s.series.all fun sel =>
        decide (sel.dataset_index < s.datasets.length)) = true := by
      rw [List.all_eq_true]
      intro sel hsel
      exact decide_eq_true (hidx sel hsel)
    simp [render, hne, hx, hcfg, hall, setFigure]
  · intro sel hsel hnv
    have hlt := hidx sel hsel
    have hget : s.datasets[sel.dataset_index]? = some s.datasets[sel.dataset_index] :=
      List.getElem?_eq_getElem hlt
    have hnb : ¬(sel.column ∈ s.datasets[sel.dataset_index].data.columns ∧
        s.x_column ∈ s.datasets[sel.dataset_index].data.columns) := by
      intro hh
      exact hnv ⟨s.datasets[sel.dataset_index], hget, hh⟩
    constructor
    · simp only [lineOf, hget]
      simp [hnb]
    · by_cases hcol : sel.column ∈ s.datasets[sel.dataset_index].data.columns
      · have hxm : s.x_column ∉ s.datasets[sel.dataset_index].data.columns :=
          fun hxmem => hnb ⟨hcol, hxmem⟩
        refine ⟨.xColumnMissing s.x_column s.datasets[sel.dataset_index].name, ?_, ?_⟩
        · simp only [warnOf, hget]
          simp [hcol, hxm]
        · refine List.mem_filterMap.mpr ⟨sel, hsel, ?_⟩
          simp only [warnOf, hget]
          simp [hcol, hxm]
      · refine ⟨.seriesColumnMissing sel.column s.datasets[sel.dataset_index].name, ?_, ?_⟩
        · simp only [warnOf, hget]
          simp [hcol]
        · refine List.mem_filterMap.mpr ⟨sel, hsel, ?_⟩
          simp only [warnOf, hget]
          simp [hcol]
  · intro sel hsel hv
    obtain ⟨d, hget, hcol, hxc⟩ := hv
    obtain ⟨ln, hln⟩ : ∃ ln, lineOf s cfg sel = some ln := by
      simp [lineOf, hget, hcol, hxc]
    exact ⟨ln, hln, List.mem_filterMap.mpr ⟨sel, hsel, hln⟩⟩

/-- A state with two selections: `"b"` exists in `f1.txt`, `"z"` does not. -/
def sWarn : AppState :=
  { sW with series := [⟨0, "b", "left", "L1", some "red"⟩,
                       ⟨0, "z", "left", "L2", some "green"⟩] }

/-- The parsed numeric configuration of `sWarn` (all scales `1`, no bounds). -/
def cfgUnit : Config :=
  ⟨some PyNum.one, some PyNum.one, some PyNum.one,
   none, none, none, none, none, none⟩

/-- Witness for `render_skips_missing_columns_nonfatally`: with one valid
and one invalid selection, the render succeeds, the invalid selection
yields exactly one warning, and only the valid selection's line is drawn. -/
theorem render_skips_missing_columns_nonfatally_witness :
    render sWarn =
      (.ok (buildChart sWarn cfgUnit) (sWarn.series.filterMap (warnOf sWarn)),
        setFigure sWarn (some (buildChart sWarn cfgUnit))) ∧
    sWarn.series.filterMap (warnOf sWarn) = [.seriesColumnMissing "z" "f1"] ∧
    (buildChart sWarn cfgUnit).lines.map (·.label) = ["L1"] := by
  have h := render_skips_missing_columns_nonfatally sWarn cfgUnit (by decide)
    (by decide) (by decide) (by decide)
  exact ⟨h.1, by decide, by decide⟩

end GUIPlotter
